import Mathlib

/-!
Shallow embedding of the admiralbet_scraper feed-collection engine
(LiveFeedService, PreGamesService, DataStorageService and peers) and
proofs about its claims.  JavaScript objects become Lean structures,
`Map` becomes an association list, mutation becomes explicit state
passing, and `throw` becomes an explicit result constructor.
-/

namespace AdmiralScraper

/-- Whether `pat` is a prefix of `s` (character lists). -/
def subAt : List Char → List Char → Bool
  | [], _ => true
  | _ :: _, [] => false
  | p :: ps, c :: cs => p == c && subAt ps cs

/-- Whether `pat` occurs contiguously in `s` (character lists). -/
def containsSub : List Char → List Char → Bool
  | s, pat =>
      if subAt pat s then true
      else
        match s with
        | [] => false
        | _ :: cs => containsSub cs pat

/-- JS `s.includes(pat)` for strings (an empty pattern always occurs). -/
def strContains (s pat : String) : Bool :=
  containsSub s.data pat.data

/-- JS `s.toLowerCase()` (per-character lowering, as `String.toLower`
does, written over the character list so that it computes by
`decide`). -/
def lowerString (s : String) : String :=
  String.mk (s.data.map Char.toLower)

/-- JS truthiness of a `string | null` value: `null` and `""` are falsy. -/
def strTruthy : Option String → Bool
  | none => false
  | some s => s != ""

/-- JS `sv?.toString() || dflt` over a `string | null` value. -/
def svDefault (sv : Option String) (dflt : String) : String :=
  match sv with
  | none => dflt
  | some s => if s == "" then dflt else s

/-- Canonical odds-market keys of the `ReadableOdds` schema
(src/types/index.ts plus the keys written by the two services). -/
inductive OddsKey
  | fullTimeResultHomeWin | fullTimeResultDraw | fullTimeResultAwayWin
  | firstHalfResultHomeWin | firstHalfResultDraw | firstHalfResultAwayWin
  | firstHalfUnderTotal | firstHalfOverTotal
  | fullTimeUnderTotal | fullTimeOverTotal
  | bothTeamsToScore | oneTeamNotToScore
  | zeroToTwoGoals | oneToTwoGoals | oneToThreeGoals | oneToFourGoals
  | twoOrThreeGoals | twoToFourGoals | threeToFourGoals | threeToFiveGoals
  | fourToFiveGoals | fourToSixGoals
  | basketballFTOT1 | basketballFTOT2
  | tennisHomeWins | tennisAwayWins
  | tennisHomeWinsFirstSet | tennisAwayWinsFirstSet
  | tennisHomeWinsSecondSet | tennisAwayWinsSecondSet
  deriving DecidableEq

/-- One `{ oddValue, betPickCode }` pair. -/
structure OddsEntry where
  oddValue : Int
  betPickCode : Int
  deriving DecidableEq

/-- A canonical key maps either to a single entry or, for line-based
markets, to a map from line-value string to entry. -/
inductive OddsValue
  | single : OddsEntry → OddsValue
  | line : List (String × OddsEntry) → OddsValue
  deriving DecidableEq

/-- The `ReadableOdds` object: canonical key → value. -/
def ReadableOdds := List (OddsKey × OddsValue)

instance : DecidableEq ReadableOdds := by
  unfold ReadableOdds; infer_instance

/-- Property read `odds.k` (undefined ↦ `none`). -/
def lookupOdds : ReadableOdds → OddsKey → Option OddsValue
  | [], _ => none
  | (k2, v) :: rest, k => if k2 = k then some v else lookupOdds rest k

/-- Property write `odds.k = v` (overwrite in place or add). -/
def setOdds : ReadableOdds → OddsKey → OddsValue → ReadableOdds
  | [], k, v => [(k, v)]
  | (k2, v2) :: rest, k, v =>
      if k2 = k then (k, v) :: rest else (k2, v2) :: setOdds rest k v

/-- `odds.k = { oddValue, betPickCode }`. -/
def setSingle (odds : ReadableOdds) (k : OddsKey) (e : OddsEntry) : ReadableOdds :=
  setOdds odds k (.single e)

/-- The sub-map under a line-based key (`{}` when absent). -/
def lineOf (odds : ReadableOdds) (k : OddsKey) : List (String × OddsEntry) :=
  match lookupOdds odds k with
  | some (.line m) => m
  | _ => []

/-- Write into a line sub-map: replace the exact sub-key or add it. -/
def setSub : List (String × OddsEntry) → String → OddsEntry → List (String × OddsEntry)
  | [], s, e => [(s, e)]
  | (s2, e2) :: rest, s, e =>
      if s2 = s then (s, e) :: rest else (s2, e2) :: setSub rest s e

/-- `if (!odds.k) odds.k = {}; odds.k[sub] = e`. -/
def setLine (odds : ReadableOdds) (k : OddsKey) (sub : String) (e : OddsEntry) : ReadableOdds :=
  setOdds odds k (.line (setSub (lineOf odds k) sub e))

theorem lookupOdds_setOdds_self (o : ReadableOdds) (k : OddsKey) (v : OddsValue) :
    lookupOdds (setOdds o k v) k = some v := by
  induction o with
  | nil => simp [setOdds, lookupOdds]
  | cons hd tl ih =>
      obtain ⟨k2, v2⟩ := hd
      by_cases h : k2 = k
      · simp [setOdds, lookupOdds, h]
      · simp [setOdds, lookupOdds, h, ih]

theorem lookupOdds_setOdds_ne (o : ReadableOdds) (k k2 : OddsKey) (v : OddsValue)
    (h : k ≠ k2) : lookupOdds (setOdds o k2 v) k = lookupOdds o k := by
  induction o with
  | nil => simp [setOdds, lookupOdds, Ne.symm h]
  | cons hd tl ih =>
      obtain ⟨k3, v3⟩ := hd
      by_cases h3 : k3 = k2
      · subst h3
        simp [setOdds, lookupOdds, Ne.symm h]
      · simp only [setOdds, if_neg h3, lookupOdds]
        by_cases h4 : k3 = k
        · simp [h4]
        · simp [h4, ih]

theorem isSome_lookupOdds_setOdds (o : ReadableOdds) (k k2 : OddsKey) (v : OddsValue)
    (h : (lookupOdds o k).isSome = true) :
    (lookupOdds (setOdds o k2 v) k).isSome = true := by
  by_cases hk : k = k2
  · subst hk; simp [lookupOdds_setOdds_self]
  · rw [lookupOdds_setOdds_ne o k k2 v hk]; exact h

/-! ## LiveFeedService: phase-one bet normalization (processBetOutcomes) -/

/-- One raw bet outcome of the live tree / detailed odds payloads:
`{ name, sBV, odd, betTypeOutcomeId }`. -/
structure LiveBetOutcomeRec where
  name : String
  sBV : Option String
  odd : Int
  betTypeOutcomeId : Int
  deriving DecidableEq

/-- One raw bet of the live payloads: bet-type id and name plus outcomes. -/
structure LiveBetRec where
  betTypeId : Int
  betTypeName : String
  betOutcomes : List LiveBetOutcomeRec
  deriving DecidableEq

/-- Body of the `for (const outcome of bet.betOutcomes)` loop of
`LiveFeedService.processBetOutcomes`. -/
def liveBetOutcomeStep (selectedSport : String) (betTypeId : Int) (betTypeName : String)
    (odds : ReadableOdds) (outcome : LiveBetOutcomeRec) : ReadableOdds :=
  let outcomeName := outcome.name
  if selectedSport == "S" then
    if betTypeId == 56 then
      if outcomeName == "1" then
        setSingle odds .fullTimeResultHomeWin ⟨outcome.odd, outcome.betTypeOutcomeId⟩
      else if outcomeName == "X" then
        setSingle odds .fullTimeResultDraw ⟨outcome.odd, outcome.betTypeOutcomeId⟩
      else if outcomeName == "2" then
        setSingle odds .fullTimeResultAwayWin ⟨outcome.odd, outcome.betTypeOutcomeId⟩
      else odds
    else if betTypeId == 6 then
      if outcomeName == "1" then
        setSingle odds .firstHalfResultHomeWin ⟨outcome.odd, outcome.betTypeOutcomeId⟩
      else if outcomeName == "X" then
        setSingle odds .firstHalfResultDraw ⟨outcome.odd, outcome.betTypeOutcomeId⟩
      else if outcomeName == "2" then
        setSingle odds .firstHalfResultAwayWin ⟨outcome.odd, outcome.betTypeOutcomeId⟩
      else odds
    else if betTypeId == 22 then
      match outcome.sBV with
      | some sv =>
          if sv == "" then odds
          else if strContains (lowerString outcomeName) "manje" then
            setLine odds .fullTimeUnderTotal ("FT_" ++ sv) ⟨outcome.odd, outcome.betTypeOutcomeId⟩
          else if strContains (lowerString outcomeName) "vise" then
            setLine odds .fullTimeOverTotal ("FT_" ++ sv) ⟨outcome.odd, outcome.betTypeOutcomeId⟩
          else odds
      | none => odds
    else if betTypeName == "1.pol - Ukupno" then
      match outcome.sBV with
      | some sv =>
          if sv == "" then odds
          else if strContains (lowerString outcomeName) "manje" then
            setLine odds .firstHalfUnderTotal ("1H_" ++ sv) ⟨outcome.odd, outcome.betTypeOutcomeId⟩
          else if strContains (lowerString outcomeName) "vise" then
            setLine odds .firstHalfOverTotal ("1H_" ++ sv) ⟨outcome.odd, outcome.betTypeOutcomeId⟩
          else odds
      | none => odds
    else if betTypeName == "Oba tima daju gol" then
      if outcomeName == "GG" || strContains (lowerString outcomeName) "da" then
        setSingle odds .bothTeamsToScore ⟨outcome.odd, outcome.betTypeOutcomeId⟩
      else if outcomeName == "NG" || strContains (lowerString outcomeName) "ne" then
        setSingle odds .oneTeamNotToScore ⟨outcome.odd, outcome.betTypeOutcomeId⟩
      else odds
    else odds
  else if selectedSport == "B" then
    if betTypeId == 56 then
      if outcomeName == "1" then
        setSingle odds .basketballFTOT1 ⟨outcome.odd, outcome.betTypeOutcomeId⟩
      else if outcomeName == "2" then
        setSingle odds .basketballFTOT2 ⟨outcome.odd, outcome.betTypeOutcomeId⟩
      else odds
    else odds
  else if selectedSport == "T" then
    if betTypeId == 56 then
      if outcomeName == "1" then
        setSingle odds .tennisHomeWins ⟨outcome.odd, outcome.betTypeOutcomeId⟩
      else if outcomeName == "2" then
        setSingle odds .tennisAwayWins ⟨outcome.odd, outcome.betTypeOutcomeId⟩
      else odds
    else if betTypeName == "Pobednik seta" then
      if outcome.sBV == some "1" then
        if outcomeName == "1" then
          setSingle odds .tennisHomeWinsFirstSet ⟨outcome.odd, outcome.betTypeOutcomeId⟩
        else if outcomeName == "2" then
          setSingle odds .tennisAwayWinsFirstSet ⟨outcome.odd, outcome.betTypeOutcomeId⟩
        else odds
      else if outcome.sBV == some "2" then
        if outcomeName == "1" then
          setSingle odds .tennisHomeWinsSecondSet ⟨outcome.odd, outcome.betTypeOutcomeId⟩
        else if outcomeName == "2" then
          setSingle odds .tennisAwayWinsSecondSet ⟨outcome.odd, outcome.betTypeOutcomeId⟩
        else odds
      else odds
    else odds
  else odds

/-- `LiveFeedService.processBetOutcomes(bet, readableOdds)`: folds the
per-outcome step over one bet's outcomes. -/
def processBetOutcomesLive (selectedSport : String) (bet : LiveBetRec)
    (odds : ReadableOdds) : ReadableOdds :=
  bet.betOutcomes.foldl (liveBetOutcomeStep selectedSport bet.betTypeId bet.betTypeName) odds

/-! ## LiveFeedService: delta-path single-field update (updateMatchOdds) -/

/-- `LiveFeedService.updateMatchOdds` restricted to its effect on the
odds object (the method mutates `match.bets.odds` in place). -/
def updateMatchOddsLiveOdds (sport : String) (odds : ReadableOdds)
    (betTypeName outcomeName : String) (specialValue : Option String)
    (newValue : Int) (betTypeOutcomeId : Int) : ReadableOdds :=
  if sport == "B" then
    if betTypeName == "Pobednik" then
      if outcomeName == "1" then
        setSingle odds .basketballFTOT1 ⟨newValue, betTypeOutcomeId⟩
      else if outcomeName == "2" then
        setSingle odds .basketballFTOT2 ⟨newValue, betTypeOutcomeId⟩
      else odds
    else odds
  else if sport == "T" then
    if betTypeName == "Pobednik" then
      if outcomeName == "1" then
        setSingle odds .tennisHomeWins ⟨newValue, betTypeOutcomeId⟩
      else if outcomeName == "2" then
        setSingle odds .tennisAwayWins ⟨newValue, betTypeOutcomeId⟩
      else odds
    else if betTypeName == "Pobednik seta" then
      if specialValue == some "1" then
        if outcomeName == "1" then
          setSingle odds .tennisHomeWinsFirstSet ⟨newValue, betTypeOutcomeId⟩
        else if outcomeName == "2" then
          setSingle odds .tennisAwayWinsFirstSet ⟨newValue, betTypeOutcomeId⟩
        else odds
      else if specialValue == some "2" then
        if outcomeName == "1" then
          setSingle odds .tennisHomeWinsSecondSet ⟨newValue, betTypeOutcomeId⟩
        else if outcomeName == "2" then
          setSingle odds .tennisAwayWinsSecondSet ⟨newValue, betTypeOutcomeId⟩
        else odds
      else odds
    else odds
  else if sport == "S" then
    if betTypeName == "Konacan ishod" then
      if outcomeName == "1" then
        setSingle odds .fullTimeResultHomeWin ⟨newValue, betTypeOutcomeId⟩
      else if outcomeName == "X" then
        setSingle odds .fullTimeResultDraw ⟨newValue, betTypeOutcomeId⟩
      else if outcomeName == "2" then
        setSingle odds .fullTimeResultAwayWin ⟨newValue, betTypeOutcomeId⟩
      else odds
    else if betTypeName == "1.pol - 1X2" then
      if outcomeName == "1" then
        setSingle odds .firstHalfResultHomeWin ⟨newValue, betTypeOutcomeId⟩
      else if outcomeName == "X" then
        setSingle odds .firstHalfResultDraw ⟨newValue, betTypeOutcomeId⟩
      else if outcomeName == "2" then
        setSingle odds .firstHalfResultAwayWin ⟨newValue, betTypeOutcomeId⟩
      else odds
    else if betTypeName == "Ukupno golova" then
      match specialValue with
      | some sv =>
          if sv == "" then odds
          else if strContains (lowerString outcomeName) "manje" then
            setLine odds .fullTimeUnderTotal ("FT_" ++ sv) ⟨newValue, betTypeOutcomeId⟩
          else if strContains (lowerString outcomeName) "vise" then
            setLine odds .fullTimeOverTotal ("FT_" ++ sv) ⟨newValue, betTypeOutcomeId⟩
          else odds
      | none => odds
    else if betTypeName == "1.p - Ukupno" then
      match specialValue with
      | some sv =>
          if sv == "" then odds
          else if strContains (lowerString outcomeName) "manje" then
            setLine odds .firstHalfUnderTotal ("1H_" ++ sv) ⟨newValue, betTypeOutcomeId⟩
          else if strContains (lowerString outcomeName) "vise" then
            setLine odds .firstHalfOverTotal ("1H_" ++ sv) ⟨newValue, betTypeOutcomeId⟩
          else odds
      | none => odds
    else if betTypeName == "Oba tima daju gol" then
      if outcomeName == "GG" || strContains (lowerString outcomeName) "da" then
        setSingle odds .bothTeamsToScore ⟨newValue, betTypeOutcomeId⟩
      else if outcomeName == "NG" || strContains (lowerString outcomeName) "ne" then
        setSingle odds .oneTeamNotToScore ⟨newValue, betTypeOutcomeId⟩
      else odds
    else odds
  else odds

/-! ## Match records, config state, and the in-memory match store -/

/-- `ProcessedBet`: wrapper `{ odds }`. -/
structure ProcessedBet where
  odds : ReadableOdds
  deriving DecidableEq

/-- `ProcessedLiveFeedMatch` (the fields the engine reads or writes). -/
structure ProcessedLiveFeedMatch where
  id : Int
  matchCode : Int
  home : String
  away : String
  league : String
  sport : String
  sportName : String
  kickOffTime : Int
  status : Int
  blocked : Bool
  favourite : Bool
  isLive : Bool
  liveScore : String
  liveTime : String
  liveStatus : String
  bets : ProcessedBet
  deriving DecidableEq

/-- `ProcessedPreGameMatch`. -/
structure ProcessedPreGameMatch where
  id : Int
  matchCode : Int
  home : String
  away : String
  league : String
  sport : String
  kickOffTime : Int
  status : Int
  blocked : Bool
  favourite : Bool
  bets : ProcessedBet
  deriving DecidableEq

/-- `Map.get` on the keyed match store. -/
def mapGet {β : Type} : List (Int × β) → Int → Option β
  | [], _ => none
  | (k2, v) :: rest, k => if k2 = k then some v else mapGet rest k

/-- `Map.set` on the keyed match store (overwrite or add). -/
def mapSet {β : Type} : List (Int × β) → Int → β → List (Int × β)
  | [], k, v => [(k, v)]
  | (k2, v2) :: rest, k, v =>
      if k2 = k then (k, v) :: rest else (k2, v2) :: mapSet rest k v

/-- `LiveFeedConfig`: the session state owned by `LiveFeedService`. -/
structure LiveFeedConfig where
  isRunning : Bool
  collectionInterval : Int
  selectedSport : String
  matchesMap : List (Int × ProcessedLiveFeedMatch)
  leagues : List String
  deriving DecidableEq

/-- `PreGameConfig`: the session state owned by `PreGamesService`. -/
structure PreGameConfig where
  isRunning : Bool
  collectionInterval : Int
  selectedSport : String
  matchesMap : List (Int × ProcessedPreGameMatch)
  leagues : List String
  deriving DecidableEq

/-! ## Start / stop control surface -/

/-- Outcome of a `start*` call: normal return after starting, early
no-op return when already running, or a thrown invalid-argument error. -/
inductive StartResult
  | started
  | alreadyRunning
  | invalidArgument (msg : String)
  deriving DecidableEq

/-- Whether a `StartResult` is a thrown invalid-argument error. -/
def StartResult.isInvalidArg : StartResult → Bool
  | .invalidArgument _ => true
  | _ => false

/-- `LiveFeedService.startLiveFeed(collectionInterval, sport)` up to its
synchronous validation and state mutation (the subsequent asynchronous
collection kick-off has no effect on the checked state). -/
def startLiveFeed (cfg : LiveFeedConfig) (collectionInterval : Int) (sport : String) :
    StartResult × LiveFeedConfig :=
  if cfg.isRunning then (.alreadyRunning, cfg)
  else if !(["B", "T", "S"].contains sport) then
    (.invalidArgument ("Invalid sport: " ++ sport), cfg)
  else if !(([1, 15, 30, 60, 120] : List Int).contains collectionInterval) then
    (.invalidArgument "Invalid collection interval", cfg)
  else
    (.started,
      { cfg with
          isRunning := true
          collectionInterval := collectionInterval
          selectedSport := sport
          matchesMap := []
          leagues := [] })

/-- `PreGamesService.startPreGames(collectionInterval, sport)`, same shape
with the pre-games allow-list `[120]`. -/
def startPreGames (cfg : PreGameConfig) (collectionInterval : Int) (sport : String) :
    StartResult × PreGameConfig :=
  if cfg.isRunning then (.alreadyRunning, cfg)
  else if !(["B", "T", "S"].contains sport) then
    (.invalidArgument ("Invalid sport: " ++ sport), cfg)
  else if !(([120] : List Int).contains collectionInterval) then
    (.invalidArgument "Invalid collection interval", cfg)
  else
    (.started,
      { cfg with
          isRunning := true
          collectionInterval := collectionInterval
          selectedSport := sport
          matchesMap := []
          leagues := [] })

/-! ## Delta-poll timer periods -/

/-- The poll period (milliseconds) chosen by
`LiveFeedService.startCacheUpdates` from the collection interval. -/
def cacheUpdateIntervalLive (collectionInterval : Int) : Int :=
  if collectionInterval == 1 then 1000
  else if collectionInterval ≤ 15 then 2000
  else if collectionInterval ≤ 30 then 5000
  else 10000

/-- The poll period (milliseconds) used by
`PreGamesService.startCacheUpdates`: a fixed `setInterval(..., 5000)`
that does not read the collection interval. -/
def cacheUpdateIntervalPre (_collectionInterval : Int) : Int :=
  5000

/-- The interval-to-period mapping stated by the spec for the delta-poll
timer (1s to a 1s poll, at most 15s to 2s, at most 30s to 5s, else 10s);
written from the spec's words for comparison with the code. -/
def specPollPeriod (collectionInterval : Int) : Int :=
  if collectionInterval == 1 then 1000
  else if collectionInterval ≤ 15 then 2000
  else if collectionInterval ≤ 30 then 5000
  else 10000

/-! ## LiveFeedService: event processing (upsert path) -/

/-- The fields of a `LiveFeedEvent` read by `processLiveEvent` and built
by `processChangedEvents`. -/
structure LiveFeedEventRec where
  id : Int
  name : String
  competitionName : String
  dateTime : String
  status : Int
  isPlayable : Bool
  isTopOffer : Bool
  sportMatchId : Int
  bets : List LiveBetRec
  deriving DecidableEq

/-- A live-results entry (`liveResults[eventId]`) as read by
`processLiveEvent`. -/
structure LiveResultRec where
  score : String
  matchTime : String
  status : String
  deriving DecidableEq

/-- `teamNames[0]?.trim() || 'Home Team'` over `event.name.split(' - ')`. -/
def homeTeamOf (name : String) : String :=
  let t := ((name.splitOn " - ").getD 0 "").trim
  if t == "" then "Home Team" else t

/-- `teamNames[1]?.trim() || 'Away Team'`. -/
def awayTeamOf (name : String) : String :=
  match (name.splitOn " - ").get? 1 with
  | none => "Away Team"
  | some s => if s.trim == "" then "Away Team" else s.trim

/-- `LiveFeedService.processLiveEvent(event, liveResult)`: normalizes the
event's bets into a fresh odds object, builds a `ProcessedLiveFeedMatch`,
and stores it with `matches.set(event.id, processedMatch)` — a wholesale
replacement of any record already stored under that id.  `parseDate`
stands for the environment's `new Date(s).getTime()`. -/
def processLiveEvent (parseDate : String → Int) (cfg : LiveFeedConfig)
    (event : LiveFeedEventRec) (liveResult : Option LiveResultRec) : LiveFeedConfig :=
  let readableOdds : ReadableOdds :=
    event.bets.foldl (fun o b => processBetOutcomesLive cfg.selectedSport b o) []
  let processedMatch : ProcessedLiveFeedMatch :=
    { id := event.id
      matchCode := event.sportMatchId
      home := homeTeamOf event.name
      away := awayTeamOf event.name
      league := event.competitionName
      sport := cfg.selectedSport
      sportName :=
        if cfg.selectedSport == "B" then "Basketball"
        else if cfg.selectedSport == "T" then "Tennis" else "Football"
      kickOffTime := parseDate event.dateTime
      status := event.status
      blocked := !event.isPlayable
      favourite := event.isTopOffer
      isLive := true
      liveScore := match liveResult with
        | some r => if r.score == "" then "0:0" else r.score
        | none => "0:0"
      liveTime := match liveResult with
        | some r => if r.matchTime == "" then "0" else r.matchTime
        | none => "0"
      liveStatus := match liveResult with
        | some r => if r.status == "" then "1p" else r.status
        | none => "1p"
      bets := ⟨readableOdds⟩ }
  { cfg with matchesMap := mapSet cfg.matchesMap event.id processedMatch }

/-! ## Delta-poll change records (positional-array wire format) -/

/-- The sport-id mapping `{ 1: 'S', 2: 'B', 3: 'T' }` used by both
services (`undefined` for any other id). -/
def sportMapping (sportId : Int) : Option String :=
  if sportId == 1 then some "S"
  else if sportId == 2 then some "B"
  else if sportId == 3 then some "T"
  else none

/-- A `CacheChangedEvent` record: positional arrays `id`, `n`, `b`, `t`. -/
structure CacheChangedEventRec where
  id : List Int
  n : List Int
  b : List Int
  t : List String
  deriving DecidableEq

/-- A `CacheChangedBetOutcome` record: positional arrays `id`, `n`, `t`. -/
structure CacheChangedBetOutcomeRec where
  id : List Int
  n : List Int
  t : List String
  deriving DecidableEq

/-- `parseInt(s) || 0` on a decimal string. -/
def parseIntOr0 (s : String) : Int :=
  (s.toInt?).getD 0

/-- Body of the `for (const event of changedEvents)` loop of
`LiveFeedService.processChangedEvents` for one record.  `fetched` is the
payload the `fetchDetailedOddsForMatch` call would return; the source
binds it to `detailedOdds` and then builds the `LiveFeedEvent` with
`bets: []`, so the parameter goes unused exactly as in the source. -/
def processChangedEventLive (parseDate : String → Int) (cfg : LiveFeedConfig)
    (event : CacheChangedEventRec) (fetched : Option (List LiveBetRec)) : LiveFeedConfig :=
  let _ := fetched
  if event.id.length < 4 || event.n.length < 7 || event.b.length < 6 || event.t.length < 7 then
    cfg
  else
    let eventId := event.id.getD 0 0
    let sportId := event.id.getD 1 0
    if sportMapping sportId ≠ some cfg.selectedSport then cfg
    else if (mapGet cfg.matchesMap eventId).isSome then cfg
    else
      let liveFeedEvent : LiveFeedEventRec :=
        { id := eventId
          name := event.t.getD 3 ""
          competitionName := event.t.getD 2 ""
          dateTime := event.t.getD 1 ""
          status := event.n.getD 0 0
          isPlayable := event.b.getD 1 0 == 1
          isTopOffer := event.b.getD 3 0 == 1
          sportMatchId := parseIntOr0 (event.t.getD 0 "")
          bets := [] }
      processLiveEvent parseDate cfg liveFeedEvent none

/-- `updateMatchOdds` of `LiveFeedService` at the match level. -/
def updateMatchOddsLive (m : ProcessedLiveFeedMatch) (betTypeName outcomeName : String)
    (specialValue : Option String) (newValue : Int) (betTypeOutcomeId : Int) :
    ProcessedLiveFeedMatch :=
  { m with bets := ⟨updateMatchOddsLiveOdds m.sport m.bets.odds betTypeName outcomeName
      specialValue newValue betTypeOutcomeId⟩ }

/-- Body of the `for (const outcome of changedBetOutcomes)` loop of
`LiveFeedService.processChangedBetOutcomes` for one record. -/
def processChangedBetOutcomeLive (cfg : LiveFeedConfig)
    (outcome : CacheChangedBetOutcomeRec) : LiveFeedConfig :=
  if outcome.id.length < 5 || outcome.n.length < 3 then cfg
  else
    let eventId := outcome.id.getD 4 0
    let sportId := outcome.id.getD 1 0
    let betTypeOutcomeId := outcome.n.getD 1 0
    let newValue := outcome.n.getD 2 0
    let betTypeName := outcome.t.getD 0 ""
    let outcomeName := outcome.t.getD 1 ""
    let specialValue := match outcome.t.get? 2 with
      | some s => if s == "" then none else some s
      | none => none
    if sportMapping sportId ≠ some cfg.selectedSport then cfg
    else
      match mapGet cfg.matchesMap eventId with
      | some m =>
          let m2 := updateMatchOddsLive m betTypeName outcomeName specialValue newValue
            betTypeOutcomeId
          { cfg with matchesMap := mapSet cfg.matchesMap eventId m2 }
      | none => cfg

/-! ## PreGamesService: phase-one bet normalization -/

/-- One outcome of a detailed-odds bet: `{ name, sbv, odd, betTypeOutcomeId }`. -/
structure PreBetOutcomeRec where
  name : String
  sbv : Option String
  odd : Int
  betTypeOutcomeId : Int
  deriving DecidableEq

/-- One detailed-odds bet as read by the pre-games normalizers. -/
structure PreBetRec where
  betTypeName : String
  betOutcomes : List PreBetOutcomeRec
  deriving DecidableEq

/-- The `Konacan ishod` outcome branch of the pre-games football
normalizer (also reused for the `1.pol - 1X2` shape below). -/
def preKonacanIshodStep (odds : ReadableOdds) (outcome : PreBetOutcomeRec) : ReadableOdds :=
  if outcome.name == "1" || strContains (lowerString outcome.name) "home" then
    setSingle odds .fullTimeResultHomeWin ⟨outcome.odd, outcome.betTypeOutcomeId⟩
  else if outcome.name == "X" || strContains (lowerString outcome.name) "draw" then
    setSingle odds .fullTimeResultDraw ⟨outcome.odd, outcome.betTypeOutcomeId⟩
  else if outcome.name == "2" || strContains (lowerString outcome.name) "away" then
    setSingle odds .fullTimeResultAwayWin ⟨outcome.odd, outcome.betTypeOutcomeId⟩
  else odds

/-- The `1.pol - 1X2` outcome branch of the pre-games football normalizer. -/
def preFirstHalfStep (odds : ReadableOdds) (outcome : PreBetOutcomeRec) : ReadableOdds :=
  if outcome.name == "1" || strContains (lowerString outcome.name) "home" then
    setSingle odds .firstHalfResultHomeWin ⟨outcome.odd, outcome.betTypeOutcomeId⟩
  else if outcome.name == "X" || strContains (lowerString outcome.name) "draw" then
    setSingle odds .firstHalfResultDraw ⟨outcome.odd, outcome.betTypeOutcomeId⟩
  else if outcome.name == "2" || strContains (lowerString outcome.name) "away" then
    setSingle odds .firstHalfResultAwayWin ⟨outcome.odd, outcome.betTypeOutcomeId⟩
  else odds

/-- The `Broj golova` outcome branch of the pre-games football normalizer. -/
def preBrojGolovaStep (odds : ReadableOdds) (outcome : PreBetOutcomeRec) : ReadableOdds :=
  let nm := (lowerString outcome.name)
  if strContains nm "1-2" then
    setSingle odds .oneToTwoGoals ⟨outcome.odd, outcome.betTypeOutcomeId⟩
  else if strContains nm "1-3" then
    setSingle odds .oneToThreeGoals ⟨outcome.odd, outcome.betTypeOutcomeId⟩
  else if strContains nm "1-4" then
    setSingle odds .oneToFourGoals ⟨outcome.odd, outcome.betTypeOutcomeId⟩
  else if strContains nm "2-3" then
    setSingle odds .twoOrThreeGoals ⟨outcome.odd, outcome.betTypeOutcomeId⟩
  else if strContains nm "2-4" then
    setSingle odds .twoToFourGoals ⟨outcome.odd, outcome.betTypeOutcomeId⟩
  else if strContains nm "3-4" then
    setSingle odds .threeToFourGoals ⟨outcome.odd, outcome.betTypeOutcomeId⟩
  else if strContains nm "3-5" then
    setSingle odds .threeToFiveGoals ⟨outcome.odd, outcome.betTypeOutcomeId⟩
  else if strContains nm "4-5" then
    setSingle odds .fourToFiveGoals ⟨outcome.odd, outcome.betTypeOutcomeId⟩
  else if strContains nm "4-6" then
    setSingle odds .fourToSixGoals ⟨outcome.odd, outcome.betTypeOutcomeId⟩
  else if strContains nm "0-2" then
    setSingle odds .zeroToTwoGoals ⟨outcome.odd, outcome.betTypeOutcomeId⟩
  else odds

/-- The `Oba tima daju gol` outcome branch of the pre-games football
normalizer. -/
def preObaTimaStep (odds : ReadableOdds) (outcome : PreBetOutcomeRec) : ReadableOdds :=
  if outcome.name == "GG" || strContains (lowerString outcome.name) "da" then
    setSingle odds .bothTeamsToScore ⟨outcome.odd, outcome.betTypeOutcomeId⟩
  else if outcome.name == "NG" || strContains (lowerString outcome.name) "ne" then
    setSingle odds .oneTeamNotToScore ⟨outcome.odd, outcome.betTypeOutcomeId⟩
  else odds

/-- The `1.pol - Ukupno golova` outcome branch of the pre-games football
normalizer (line value defaults to "0.5" when `sbv` is falsy). -/
def preFirstHalfTotalsStep (odds : ReadableOdds) (outcome : PreBetOutcomeRec) : ReadableOdds :=
  let nm := (lowerString outcome.name)
  let specialValue := svDefault outcome.sbv "0.5"
  if strContains nm "manje" then
    setLine odds .firstHalfUnderTotal specialValue ⟨outcome.odd, outcome.betTypeOutcomeId⟩
  else if strContains nm "vise" then
    setLine odds .firstHalfOverTotal specialValue ⟨outcome.odd, outcome.betTypeOutcomeId⟩
  else odds

/-- The `Ukupno golova` outcome branch of the pre-games football
normalizer (line value defaults to "2.5" when `sbv` is falsy). -/
def preTotalsStep (odds : ReadableOdds) (outcome : PreBetOutcomeRec) : ReadableOdds :=
  let nm := (lowerString outcome.name)
  let specialValue := svDefault outcome.sbv "2.5"
  if strContains nm "manje" then
    setLine odds .fullTimeUnderTotal specialValue ⟨outcome.odd, outcome.betTypeOutcomeId⟩
  else if strContains nm "vise" then
    setLine odds .fullTimeOverTotal specialValue ⟨outcome.odd, outcome.betTypeOutcomeId⟩
  else odds

/-- The per-bet body of the normalization loop in
`PreGamesService.processAdmiralBetFootballEvent`: a sequence of
independent `if (bet.betTypeName === ...)` blocks, each folding over the
bet's outcomes. -/
def processFootballBetPre (odds0 : ReadableOdds) (bet : PreBetRec) : ReadableOdds :=
  let odds1 :=
    if bet.betTypeName == "Konacan ishod" then
      bet.betOutcomes.foldl preKonacanIshodStep odds0
    else odds0
  let odds2 :=
    if bet.betTypeName == "1.pol - 1X2" then
      bet.betOutcomes.foldl preFirstHalfStep odds1
    else odds1
  let odds3 :=
    if bet.betTypeName == "Broj golova" then
      bet.betOutcomes.foldl preBrojGolovaStep odds2
    else odds2
  let odds4 :=
    if bet.betTypeName == "Oba tima daju gol" then
      bet.betOutcomes.foldl preObaTimaStep odds3
    else odds3
  let odds5 :=
    if bet.betTypeName == "1.pol - Ukupno golova" then
      bet.betOutcomes.foldl preFirstHalfTotalsStep odds4
    else odds4
  if bet.betTypeName == "Ukupno golova" then
    bet.betOutcomes.foldl preTotalsStep odds5
  else odds5

/-- The `Pobednik` outcome branch of the pre-games basketball normalizer. -/
def prePobednikBasketballStep (odds : ReadableOdds) (outcome : PreBetOutcomeRec) : ReadableOdds :=
  if outcome.name == "1" || strContains (lowerString outcome.name) "home" then
    setSingle odds .basketballFTOT1 ⟨outcome.odd, outcome.betTypeOutcomeId⟩
  else if outcome.name == "2" || strContains (lowerString outcome.name) "away" then
    setSingle odds .basketballFTOT2 ⟨outcome.odd, outcome.betTypeOutcomeId⟩
  else odds

/-- The per-bet body of the normalization loop in
`PreGamesService.processAdmiralBetEvent` (basketball). -/
def processBasketballBetPre (odds0 : ReadableOdds) (bet : PreBetRec) : ReadableOdds :=
  if bet.betTypeName == "Pobednik" then
    bet.betOutcomes.foldl prePobednikBasketballStep odds0
  else odds0

/-- The `Pobednik` outcome branch of the pre-games tennis normalizer. -/
def prePobednikTennisStep (odds : ReadableOdds) (outcome : PreBetOutcomeRec) : ReadableOdds :=
  if outcome.name == "1" || strContains (lowerString outcome.name) "home" then
    setSingle odds .tennisHomeWins ⟨outcome.odd, outcome.betTypeOutcomeId⟩
  else if outcome.name == "2" || strContains (lowerString outcome.name) "away" then
    setSingle odds .tennisAwayWins ⟨outcome.odd, outcome.betTypeOutcomeId⟩
  else odds

/-- The `1.set - Pobednik` outcome branch of the pre-games tennis
normalizer. -/
def preFirstSetTennisStep (odds : ReadableOdds) (outcome : PreBetOutcomeRec) : ReadableOdds :=
  if outcome.name == "1" || strContains (lowerString outcome.name) "home" then
    setSingle odds .tennisHomeWinsFirstSet ⟨outcome.odd, outcome.betTypeOutcomeId⟩
  else if outcome.name == "2" || strContains (lowerString outcome.name) "away" then
    setSingle odds .tennisAwayWinsFirstSet ⟨outcome.odd, outcome.betTypeOutcomeId⟩
  else odds

/-- The per-bet body of the normalization loop in
`PreGamesService.processAdmiralBetTennisEvent`. -/
def processTennisBetPre (odds0 : ReadableOdds) (bet : PreBetRec) : ReadableOdds :=
  let odds1 :=
    if bet.betTypeName == "Pobednik" then
      bet.betOutcomes.foldl prePobednikTennisStep odds0
    else odds0
  if bet.betTypeName == "1.set - Pobednik" then
    bet.betOutcomes.foldl preFirstSetTennisStep odds1
  else odds1

/-! ## PreGamesService: delta-path single-field update (updateMatchOdds) -/

/-- `PreGamesService.updateMatchOdds` restricted to its effect on the
odds object. -/
def updateMatchOddsPreOdds (sport : String) (odds : ReadableOdds)
    (betTypeName outcomeName : String) (specialValue : Option String)
    (newValue : Int) (betTypeOutcomeId : Int) : ReadableOdds :=
  if sport == "B" then
    if betTypeName == "Pobednik" then
      if outcomeName == "1" then
        setSingle odds .basketballFTOT1 ⟨newValue, betTypeOutcomeId⟩
      else if outcomeName == "2" then
        setSingle odds .basketballFTOT2 ⟨newValue, betTypeOutcomeId⟩
      else odds
    else odds
  else if sport == "T" then
    if betTypeName == "Pobednik" then
      if outcomeName == "1" then
        setSingle odds .tennisHomeWins ⟨newValue, betTypeOutcomeId⟩
      else if outcomeName == "2" then
        setSingle odds .tennisAwayWins ⟨newValue, betTypeOutcomeId⟩
      else odds
    else if betTypeName == "1.set - Pobednik" then
      if outcomeName == "1" then
        setSingle odds .tennisHomeWinsFirstSet ⟨newValue, betTypeOutcomeId⟩
      else if outcomeName == "2" then
        setSingle odds .tennisAwayWinsFirstSet ⟨newValue, betTypeOutcomeId⟩
      else odds
    else odds
  else if sport == "S" then
    if betTypeName == "Konacan ishod" then
      if outcomeName == "1" then
        setSingle odds .fullTimeResultHomeWin ⟨newValue, betTypeOutcomeId⟩
      else if outcomeName == "X" then
        setSingle odds .fullTimeResultDraw ⟨newValue, betTypeOutcomeId⟩
      else if outcomeName == "2" then
        setSingle odds .fullTimeResultAwayWin ⟨newValue, betTypeOutcomeId⟩
      else odds
    else if betTypeName == "1.pol - 1X2" then
      if outcomeName == "1" then
        setSingle odds .firstHalfResultHomeWin ⟨newValue, betTypeOutcomeId⟩
      else if outcomeName == "X" then
        setSingle odds .firstHalfResultDraw ⟨newValue, betTypeOutcomeId⟩
      else if outcomeName == "2" then
        setSingle odds .firstHalfResultAwayWin ⟨newValue, betTypeOutcomeId⟩
      else odds
    else if betTypeName == "Broj golova" then
      let nm := (lowerString outcomeName)
      if strContains nm "1-2" then
        setSingle odds .oneToTwoGoals ⟨newValue, betTypeOutcomeId⟩
      else if strContains nm "1-3" then
        setSingle odds .oneToThreeGoals ⟨newValue, betTypeOutcomeId⟩
      else if strContains nm "1-4" then
        setSingle odds .oneToFourGoals ⟨newValue, betTypeOutcomeId⟩
      else if strContains nm "2-3" then
        setSingle odds .twoOrThreeGoals ⟨newValue, betTypeOutcomeId⟩
      else if strContains nm "2-4" then
        setSingle odds .twoToFourGoals ⟨newValue, betTypeOutcomeId⟩
      else if strContains nm "3-4" then
        setSingle odds .threeToFourGoals ⟨newValue, betTypeOutcomeId⟩
      else if strContains nm "3-5" then
        setSingle odds .threeToFiveGoals ⟨newValue, betTypeOutcomeId⟩
      else if strContains nm "4-5" then
        setSingle odds .fourToFiveGoals ⟨newValue, betTypeOutcomeId⟩
      else if strContains nm "4-6" then
        setSingle odds .fourToSixGoals ⟨newValue, betTypeOutcomeId⟩
      else if strContains nm "0-2" then
        setSingle odds .zeroToTwoGoals ⟨newValue, betTypeOutcomeId⟩
      else odds
    else if betTypeName == "Oba tima daju gol" then
      if outcomeName == "GG" || strContains (lowerString outcomeName) "da" then
        setSingle odds .bothTeamsToScore ⟨newValue, betTypeOutcomeId⟩
      else if outcomeName == "NG" || strContains (lowerString outcomeName) "ne" then
        setSingle odds .oneTeamNotToScore ⟨newValue, betTypeOutcomeId⟩
      else odds
    else if betTypeName == "1.pol - Ukupno golova" then
      match specialValue with
      | some sv =>
          if sv == "" then odds
          else if strContains (lowerString outcomeName) "manje" then
            setLine odds .firstHalfUnderTotal sv ⟨newValue, betTypeOutcomeId⟩
          else if strContains (lowerString outcomeName) "vise" then
            setLine odds .firstHalfOverTotal sv ⟨newValue, betTypeOutcomeId⟩
          else odds
      | none => odds
    else if betTypeName == "Ukupno golova" then
      match specialValue with
      | some sv =>
          if sv == "" then odds
          else if strContains (lowerString outcomeName) "manje" then
            setLine odds .fullTimeUnderTotal sv ⟨newValue, betTypeOutcomeId⟩
          else if strContains (lowerString outcomeName) "vise" then
            setLine odds .fullTimeOverTotal sv ⟨newValue, betTypeOutcomeId⟩
          else odds
      | none => odds
    else odds
  else odds

/-- `updateMatchOdds` of `PreGamesService` at the match level. -/
def updateMatchOddsPre (m : ProcessedPreGameMatch) (betTypeName outcomeName : String)
    (specialValue : Option String) (newValue : Int) (betTypeOutcomeId : Int) :
    ProcessedPreGameMatch :=
  { m with bets := ⟨updateMatchOddsPreOdds m.sport m.bets.odds betTypeName outcomeName
      specialValue newValue betTypeOutcomeId⟩ }

/-- Body of the `for (const outcome of changedBetOutcomes)` loop of
`PreGamesService.processChangedBetOutcomes` for one record. -/
def processChangedBetOutcomePre (cfg : PreGameConfig)
    (outcome : CacheChangedBetOutcomeRec) : PreGameConfig :=
  if outcome.id.length < 5 || outcome.n.length < 3 then cfg
  else
    let eventId := outcome.id.getD 4 0
    let sportId := outcome.id.getD 1 0
    let betTypeOutcomeId := outcome.n.getD 1 0
    let newValue := outcome.n.getD 2 0
    let betTypeName := outcome.t.getD 0 ""
    let outcomeName := outcome.t.getD 1 ""
    let specialValue := match outcome.t.get? 2 with
      | some s => if s == "" then none else some s
      | none => none
    if sportMapping sportId ≠ some cfg.selectedSport then cfg
    else
      match mapGet cfg.matchesMap eventId with
      | some m =>
          let m2 := updateMatchOddsPre m betTypeName outcomeName specialValue newValue
            betTypeOutcomeId
          { cfg with matchesMap := mapSet cfg.matchesMap eventId m2 }
      | none => cfg

/-! ## PreGamesService.fetchPagesConcurrently (paginated event fetcher) -/

/-- The batched `while (hasMoreData && currentPage < totalPages)` loop of
`fetchPagesConcurrently`.  `pages` is the page fetcher (page number to
item list; failed pages are already mapped to `[]` by the source's catch
block).  Returns the accumulated items and the list of page numbers that
were requested.  Each loop iteration consumes one unit of `fuel`; the
loop advances `currentPage` by at least one page per iteration whenever
`concurrency ≥ 1`, so `fuel = totalPages` suffices to run the loop to
completion. -/
def fetchPagesGo {α : Type} (pages : Nat → List α) (totalPages concurrency : Nat) :
    Nat → Nat → List α × List Nat
  | 0, _ => ([], [])
  | fuel + 1, currentPage =>
      if currentPage < totalPages then
        let remainingPages := totalPages - currentPage
        let batchSize := min concurrency remainingPages
        let pageNumbers := (List.range batchSize).map (fun i => currentPage + i)
        let results := pageNumbers.map pages
        let batchEvents := results.flatten
        let foundEmptyPage := results.any (fun r => r.isEmpty)
        if foundEmptyPage then (batchEvents, pageNumbers)
        else
          let rest := fetchPagesGo pages totalPages concurrency fuel (currentPage + batchSize)
          (batchEvents ++ rest.1, pageNumbers ++ rest.2)
      else ([], [])

/-- `PreGamesService.fetchPagesConcurrently(sportId, totalPages, topN,
concurrency)` with the network abstracted into `pages`: returns all
accumulated events plus the set of requested page numbers. -/
def fetchPagesConcurrently {α : Type} (pages : Nat → List α)
    (totalPages concurrency : Nat) : List α × List Nat :=
  fetchPagesGo pages totalPages concurrency totalPages 0

/-! ## DataStorageService / RedisService (storage gateway) -/

/-- The storage-gateway state: `DataStorageService.{redisAvailable,
storageType}` plus the underlying `RedisService.{isConnected,
connectionFailed}` flags. -/
structure StorageState where
  redisAvailable : Bool
  storageType : String
  isConnected : Bool
  connectionFailed : Bool
  deriving DecidableEq

/-- `RedisService.isRedisConnected()`. -/
def isRedisConnected (s : StorageState) : Bool :=
  s.isConnected && !s.connectionFailed

/-- `DataStorageService.getStorageType()`. -/
def getStorageType (s : StorageState) : String :=
  s.storageType

/-- `DataStorageService.initialize()`: attempt the Redis connection
(`connectOk` is whether `redisService.connect()` succeeds); on failure
fall back to file storage for the session. -/
def initializeStorage (s : StorageState) (connectOk : Bool) : StorageState :=
  if connectOk then
    { s with redisAvailable := true, storageType := "redis", isConnected := true }
  else
    { s with redisAvailable := false, storageType := "file",
             isConnected := false, connectionFailed := true }

/-- `RedisService.connect()` as seen by a would-be retry: it refuses to
reconnect once `connectionFailed` is set. -/
def redisConnectGuard (s : StorageState) : Except String Unit :=
  if s.connectionFailed then
    .error "Redis connection previously failed, not attempting to reconnect"
  else .ok ()

/-- Which backend a save goes to: the branch condition of
`DataStorageService.saveData` / `savePreGamesData` / `saveLiveFeedData`. -/
inductive Backend
  | redis
  | file
  deriving DecidableEq

/-- The backend chosen by `saveData`'s
`if (this.redisAvailable && this.redisService.isRedisConnected())`. -/
def chooseBackend (s : StorageState) : Backend :=
  if s.redisAvailable && isRedisConnected s then .redis else .file

/-- The persisted JSON document of the file backend:
`{ matches, lastUpdated, collectionInterval, selectedSport, totalMatches,
totalLeagues }`. -/
structure FileData where
  matchesMap : List ProcessedLiveFeedMatch
  lastUpdated : String
  collectionInterval : Int
  selectedSport : String
  totalMatches : Int
  totalLeagues : Int
  deriving DecidableEq

/-- The snapshot metadata handed to the storage gateway. -/
structure SaveMetadata where
  lastUpdated : String
  collectionInterval : Int
  selectedSport : String
  totalLeagues : Int
  deriving DecidableEq

/-- The per-match body of the merge loop in `saveToFile` /
`saveLiveFeedToFile` / `savePreGamesToFile`: replace the first existing
entry with the same id (`findIndex` + assignment) or append. -/
def upsertById : List ProcessedLiveFeedMatch → ProcessedLiveFeedMatch →
    List ProcessedLiveFeedMatch
  | [], m => [m]
  | x :: xs, m => if x.id = m.id then m :: xs else x :: upsertById xs m

/-- `DataStorageService.saveLiveFeedToFile(matches, metadata)` (the same
read-merge-write algorithm as `saveToFile` and `savePreGamesToFile`):
merge the saved matches into the existing document by id, then refresh
the metadata fields. -/
def saveLiveFeedToFile (fd : FileData) (ms : List ProcessedLiveFeedMatch)
    (meta : SaveMetadata) : FileData :=
  let merged := ms.foldl upsertById fd.matchesMap
  { matchesMap := merged
    lastUpdated := meta.lastUpdated
    collectionInterval := meta.collectionInterval
    selectedSport := meta.selectedSport
    totalMatches := (merged.length : Int)
    totalLeagues := meta.totalLeagues }

/-- `DataStorageService.getFromFile()` restricted to the match list
(`data.matches || []`). -/
def getFromFile (fd : FileData) : List ProcessedLiveFeedMatch :=
  fd.matchesMap

/-- `matches.find(m => m.id === id)` on the file document: the record a
full read yields for a given id. -/
def findById (ms : List ProcessedLiveFeedMatch) (i : Int) : Option ProcessedLiveFeedMatch :=
  ms.find? (fun m => m.id == i)

/-- `DataStorageService.saveLiveFeedData` as a state transformer: pick
the backend, write to it, and return the (unchanged) gateway state, the
backend used, and the resulting file document (untouched on the Redis
path). -/
def saveDataGateway (s : StorageState) (fd : FileData)
    (ms : List ProcessedLiveFeedMatch) (meta : SaveMetadata) :
    StorageState × Backend × FileData :=
  match chooseBackend s with
  | .redis => (s, .redis, fd)
  | .file => (s, .file, saveLiveFeedToFile fd ms meta)

/-! ## Stream-ingestion bootstrap resume cursor -/

/-- Modelled from the spec: the stream-ingestion client (the MaxBet
push-protocol collector, whose implementation is not part of this
repository's sources) derives the continuous-phase resume cursor from
the END control frame's timestamp — the end timestamp is used directly
unless it is more than 300 seconds older than the current wall-clock
time, in which case the current time is substituted.  Times are in
seconds. -/
def computeResumeCursor (now endTimestamp : Int) : Int :=
  if now - endTimestamp > 300 then now else endTimestamp

/-! ## Claim theorems -/

/-- C1: for every `startLiveFeed` / `startPreGames` call on an idle
session, an unsupported sport or an interval outside the service's
allow-list (`[1, 15, 30, 60, 120]` live, `[120]` pre-games) fails
synchronously with an invalid-argument error and leaves the session
state unchanged; valid parameters transition the state to running; a
call while already running is a no-op that neither validates nor changes
anything. -/
theorem c1_start_validation :
    (∀ (cfg : LiveFeedConfig) (interval : Int) (sport : String),
        cfg.isRunning = false →
        (((["B", "T", "S"] : List String).contains sport = false ∨
            ([1, 15, 30, 60, 120] : List Int).contains interval = false) →
          (startLiveFeed cfg interval sport).1.isInvalidArg = true ∧
          (startLiveFeed cfg interval sport).2 = cfg) ∧
        ((["B", "T", "S"] : List String).contains sport = true →
          ([1, 15, 30, 60, 120] : List Int).contains interval = true →
          (startLiveFeed cfg interval sport).1 = .started ∧
          (startLiveFeed cfg interval sport).2.isRunning = true)) ∧
    (∀ (cfg : LiveFeedConfig) (interval : Int) (sport : String),
        cfg.isRunning = true →
        startLiveFeed cfg interval sport = (.alreadyRunning, cfg)) ∧
    (∀ (cfg : PreGameConfig) (interval : Int) (sport : String),
        cfg.isRunning = false →
        (((["B", "T", "S"] : List String).contains sport = false ∨
            ([120] : List Int).contains interval = false) →
          (startPreGames cfg interval sport).1.isInvalidArg = true ∧
          (startPreGames cfg interval sport).2 = cfg) ∧
        ((["B", "T", "S"] : List String).contains sport = true →
          ([120] : List Int).contains interval = true →
          (startPreGames cfg interval sport).1 = .started ∧
          (startPreGames cfg interval sport).2.isRunning = true)) ∧
    (∀ (cfg : PreGameConfig) (interval : Int) (sport : String),
        cfg.isRunning = true →
        startPreGames cfg interval sport = (.alreadyRunning, cfg)) := by
  refine ⟨?_, ?_, ?_, ?_⟩
  · intro cfg interval sport hrun
    constructor
    · intro hinv
      by_cases hs : (["B", "T", "S"] : List String).contains sport = true
      · have hi : ([1, 15, 30, 60, 120] : List Int).contains interval = false := by
          rcases hinv with h | h
          · rw [hs] at h; cases h
          · exact h
        simp at hs hi
        rcases hs with rfl | rfl | rfl <;>
          simp [startLiveFeed, hrun, hi, StartResult.isInvalidArg]
      · have hs2 : (["B", "T", "S"] : List String).contains sport = false := by
          simpa using hs
        simp at hs2
        simp [startLiveFeed, hrun, hs2, StartResult.isInvalidArg]
    · intro hs hi
      simp at hs hi
      rcases hs with rfl | rfl | rfl <;>
        rcases hi with rfl | rfl | rfl | rfl | rfl <;>
          simp [startLiveFeed, hrun]
  · intro cfg interval sport hrun
    simp [startLiveFeed, hrun]
  · intro cfg interval sport hrun
    constructor
    · intro hinv
      by_cases hs : (["B", "T", "S"] : List String).contains sport = true
      · have hi : ([120] : List Int).contains interval = false := by
          rcases hinv with h | h
          · rw [hs] at h; cases h
          · exact h
        simp at hs hi
        rcases hs with rfl | rfl | rfl <;>
          simp [startPreGames, hrun, hi, StartResult.isInvalidArg]
      · have hs2 : (["B", "T", "S"] : List String).contains sport = false := by
          simpa using hs
        simp at hs2
        simp [startPreGames, hrun, hs2, StartResult.isInvalidArg]
    · intro hs hi
      simp at hs hi
      rcases hs with rfl | rfl | rfl <;> subst hi <;>
        simp [startPreGames, hrun]
  · intro cfg interval sport hrun
    simp [startPreGames, hrun]

/-- C1 witness: concrete instances of every part of the validation
theorem — an invalid interval is rejected without touching state, a
valid pair starts the session, and a running session ignores the call. -/
theorem c1_start_validation_witness :
    ((startLiveFeed ⟨false, 30, "S", [], []⟩ 7 "S").1.isInvalidArg = true ∧
      (startLiveFeed ⟨false, 30, "S", [], []⟩ 7 "S").2 = ⟨false, 30, "S", [], []⟩) ∧
    ((startLiveFeed ⟨false, 30, "S", [], []⟩ 30 "B").1 = .started ∧
      (startLiveFeed ⟨false, 30, "S", [], []⟩ 30 "B").2.isRunning = true) ∧
    startLiveFeed ⟨true, 30, "S", [], []⟩ 30 "B" = (.alreadyRunning, ⟨true, 30, "S", [], []⟩) ∧
    ((startPreGames ⟨false, 120, "B", [], []⟩ 30 "B").1.isInvalidArg = true ∧
      (startPreGames ⟨false, 120, "B", [], []⟩ 30 "B").2 = ⟨false, 120, "B", [], []⟩) ∧
    ((startPreGames ⟨false, 120, "B", [], []⟩ 120 "T").1 = .started ∧
      (startPreGames ⟨false, 120, "B", [], []⟩ 120 "T").2.isRunning = true) := by
  refine ⟨?_, ?_, ?_, ?_, ?_⟩
  · exact (c1_start_validation.1 ⟨false, 30, "S", [], []⟩ 7 "S" rfl).1 (Or.inr (by decide))
  · exact (c1_start_validation.1 ⟨false, 30, "S", [], []⟩ 30 "B" rfl).2 (by decide) (by decide)
  · exact c1_start_validation.2.1 ⟨true, 30, "S", [], []⟩ 30 "B" rfl
  · exact (c1_start_validation.2.2.1 ⟨false, 120, "B", [], []⟩ 30 "B" rfl).1 (Or.inr (by decide))
  · exact (c1_start_validation.2.2.1 ⟨false, 120, "B", [], []⟩ 120 "T" rfl).2 (by decide) (by decide)

/-- C6: when the initial Redis connection attempt fails during
`initialize()`, the gateway is in file mode for the rest of the session:
`getStorageType()` reports `"file"`, every subsequent save selects the
file backend and lands the matches in the file document, the gateway
state (including the connection flags) is left untouched by saves, and
`RedisService.connect()` refuses any reconnection attempt. -/
theorem c6_storage_fallback (s : StorageState) (fd : FileData)
    (ms : List ProcessedLiveFeedMatch) (meta : SaveMetadata) :
    getStorageType (initializeStorage s false) = "file" ∧
    (saveDataGateway (initializeStorage s false) fd ms meta).1 = initializeStorage s false ∧
    (saveDataGateway (initializeStorage s false) fd ms meta).2.1 = Backend.file ∧
    (saveDataGateway (initializeStorage s false) fd ms meta).2.2 =
      saveLiveFeedToFile fd ms meta ∧
    (redisConnectGuard (initializeStorage s false)).isOk = false := by
  refine ⟨rfl, ?_, ?_, ?_, rfl⟩ <;>
    simp [saveDataGateway, chooseBackend, initializeStorage, isRedisConnected]

/-- C8 counterexample: the pre-games delta-poll timer does not follow the
claimed interval mapping — with the (only allowed) interval of 120
seconds it polls every 5 seconds, not the mapped 10 seconds. -/
theorem c8_counterexample : cacheUpdateIntervalPre 120 ≠ specPollPeriod 120 := by
  decide

/-- C8 (amended): the live-feed delta-poll timer period follows the
interval mapping (1s to 1s, at most 15s to 2s, at most 30s to 5s, else
10s); the pre-games timer is a fixed 5 seconds independent of the
configured interval. -/
theorem c8_poll_period_amended :
    (∀ n : Int, cacheUpdateIntervalLive n = specPollPeriod n) ∧
    (∀ n : Int, cacheUpdateIntervalPre n = 5000) :=
  ⟨fun _ => rfl, fun _ => rfl⟩

/-- C9: the stream-bootstrap resume cursor is the current wall-clock
time when the END frame's timestamp is more than 300 seconds old, and
the timestamp itself otherwise (modelled from the spec — the push
protocol client is not among this repository's sources). -/
theorem c9_resume_cursor (now endTimestamp : Int) :
    (now - endTimestamp > 300 → computeResumeCursor now endTimestamp = now) ∧
    (now - endTimestamp ≤ 300 → computeResumeCursor now endTimestamp = endTimestamp) := by
  constructor
  · intro h
    simp [computeResumeCursor, h]
  · intro h
    simp [computeResumeCursor]
    omega

/-- C9 witness: with `now = 100000`, an END timestamp 400 seconds old
resumes from `now`, and one 100 seconds old resumes from the timestamp. -/
theorem c9_resume_cursor_witness :
    computeResumeCursor 100000 99600 = 100000 ∧
    computeResumeCursor 100000 99900 = 99900 :=
  ⟨(c9_resume_cursor 100000 99600).1 (by decide),
   (c9_resume_cursor 100000 99900).2 (by decide)⟩

/-- C10: a changed-bet-outcome record whose event id is not in the match
store, or whose sport id does not map to the session's selected sport,
leaves the session state (in particular the match store) completely
unchanged, in both services. -/
theorem c10_changed_outcome_frame :
    (∀ (cfg : LiveFeedConfig) (o : CacheChangedBetOutcomeRec),
        (mapGet cfg.matchesMap (o.id.getD 4 0) = none ∨
          sportMapping (o.id.getD 1 0) ≠ some cfg.selectedSport) →
        processChangedBetOutcomeLive cfg o = cfg) ∧
    (∀ (cfg : PreGameConfig) (o : CacheChangedBetOutcomeRec),
        (mapGet cfg.matchesMap (o.id.getD 4 0) = none ∨
          sportMapping (o.id.getD 1 0) ≠ some cfg.selectedSport) →
        processChangedBetOutcomePre cfg o = cfg) := by
  constructor
  · intro cfg o h
    rcases h with h | h <;> simp at h <;> simp [processChangedBetOutcomeLive, h]
  · intro cfg o h
    rcases h with h | h <;> simp at h <;> simp [processChangedBetOutcomePre, h]

/-- C10 witness: a record for event id 5 against a store that does not
hold id 5 leaves the live session state unchanged. -/
theorem c10_changed_outcome_frame_witness :
    processChangedBetOutcomeLive ⟨true, 30, "S", [], []⟩
        ⟨[9, 1, 2, 3, 5], [56, 7, 2], ["Konacan ishod", "1", ""]⟩ =
      ⟨true, 30, "S", [], []⟩ :=
  c10_changed_outcome_frame.1 ⟨true, 30, "S", [], []⟩
    ⟨[9, 1, 2, 3, 5], [56, 7, 2], ["Konacan ishod", "1", ""]⟩ (Or.inl rfl)

/-- A page sequence of the shape `[N items, N items, 0 items, N items]`
(page size 1): pages 0, 1 and 3 hold one event, every other page is
empty. -/
def pagesEx : Nat → List Nat := fun i =>
  if i == 2 then [] else if i < 4 then [10 * i] else []

/-- C3 counterexample: with concurrency 4 (which is "at least 3") the
fetcher requests the fourth page in the same batch as the empty third
page, and the returned items include the fourth page's items, so they
are not exactly the items of the first two pages. -/
theorem c3_counterexample :
    (pagesEx 0).length = 1 ∧ (pagesEx 1).length = 1 ∧ pagesEx 2 = [] ∧
    (pagesEx 3).length = 1 ∧
    3 ∈ (fetchPagesConcurrently pagesEx 100 4).2 ∧
    (fetchPagesConcurrently pagesEx 100 4).1 ≠ pagesEx 0 ++ pagesEx 1 := by
  decide

/-- C3 (amended): with concurrency exactly 3, a page sequence returning
`[N items, N items, 0 items, N items]` makes the fetcher request exactly
pages 0, 1 and 2 (never the fourth page) and return exactly the items of
the first two pages. -/
theorem c3_early_termination_amended {α : Type} (N : Nat) (pages : Nat → List α)
    (totalPages : Nat) (hN : 0 < N)
    (h0 : (pages 0).length = N) (h1 : (pages 1).length = N)
    (h2 : pages 2 = []) (h3 : (pages 3).length = N)
    (htot : 3 ≤ totalPages) :
    fetchPagesConcurrently pages totalPages 3 = (pages 0 ++ pages 1, [0, 1, 2]) := by
  obtain ⟨k, rfl⟩ : ∃ k, totalPages = k + 1 := ⟨totalPages - 1, by omega⟩
  have hmin : min 3 (k + 1 - 0) = 3 := by omega
  simp only [fetchPagesConcurrently, fetchPagesGo]
  rw [if_pos (by omega)]
  simp only [hmin]
  have hrange : List.range 3 = [0, 1, 2] := rfl
  simp [hrange, h2, List.isEmpty_nil]

/-- C3 witness: the amended theorem at a concrete four-page sequence. -/
theorem c3_early_termination_amended_witness :
    fetchPagesConcurrently pagesEx 100 3 = (pagesEx 0 ++ pagesEx 1, [0, 1, 2]) :=
  c3_early_termination_amended 1 pagesEx 100 (by decide) (by decide) (by decide)
    (by decide) (by decide) (by decide)

/-! ### Round-trip lemmas for the file backend merge -/

theorem findById_upsertById_self (ms : List ProcessedLiveFeedMatch)
    (m : ProcessedLiveFeedMatch) :
    findById (upsertById ms m) m.id = some m := by
  induction ms with
  | nil =>
      unfold upsertById findById
      rw [List.find?_cons_of_pos _ (by simp)]
  | cons x xs ih =>
      by_cases hx : x.id = m.id
      · unfold upsertById
        rw [if_pos hx]
        unfold findById
        rw [List.find?_cons_of_pos _ (by simp)]
      · unfold upsertById
        rw [if_neg hx]
        unfold findById at ih ⊢
        rw [List.find?_cons_of_neg _ (by simp [hx])]
        exact ih

theorem findById_upsertById_ne (ms : List ProcessedLiveFeedMatch)
    (m : ProcessedLiveFeedMatch) (i : Int) (h : i ≠ m.id) :
    findById (upsertById ms m) i = findById ms i := by
  induction ms with
  | nil =>
      unfold upsertById findById
      rw [List.find?_cons_of_neg _ (by simp [Ne.symm h])]
  | cons x xs ih =>
      by_cases hx : x.id = m.id
      · unfold upsertById
        rw [if_pos hx]
        unfold findById
        rw [List.find?_cons_of_neg _ (by simp [Ne.symm h]),
            List.find?_cons_of_neg _ (by simp [hx, Ne.symm h])]
      · unfold upsertById
        rw [if_neg hx]
        unfold findById at ih ⊢
        by_cases hxi : x.id = i
        · rw [List.find?_cons_of_pos _ (by simp [hxi]),
              List.find?_cons_of_pos _ (by simp [hxi])]
        · rw [List.find?_cons_of_neg _ (by simp [hxi]),
              List.find?_cons_of_neg _ (by simp [hxi])]
          exact ih

theorem mem_ids_upsertById (ms : List ProcessedLiveFeedMatch)
    (m : ProcessedLiveFeedMatch) (i : Int) :
    i ∈ (upsertById ms m).map (fun x => x.id) ↔
      i ∈ ms.map (fun x => x.id) ∨ i = m.id := by
  induction ms with
  | nil => simp [upsertById]
  | cons x xs ih =>
      by_cases hx : x.id = m.id
      · simp only [upsertById, if_pos hx, List.map, List.mem_cons, ih]
        rw [hx]
        tauto
      · simp only [upsertById, if_neg hx, List.map, List.mem_cons, ih]
        tauto

theorem mem_ids_foldl_upsertById (ms acc : List ProcessedLiveFeedMatch) (i : Int) :
    i ∈ (ms.foldl upsertById acc).map (fun x => x.id) ↔
      i ∈ acc.map (fun x => x.id) ∨ i ∈ ms.map (fun x => x.id) := by
  induction ms generalizing acc with
  | nil => simp
  | cons m ms ih =>
      simp only [List.foldl_cons, ih, mem_ids_upsertById, List.map, List.mem_cons]
      tauto

theorem findById_foldl_upsertById_not_mem (ms acc : List ProcessedLiveFeedMatch)
    (i : Int) (h : i ∉ ms.map (fun x => x.id)) :
    findById (ms.foldl upsertById acc) i = findById acc i := by
  induction ms generalizing acc with
  | nil => simp
  | cons m ms ih =>
      simp only [List.map, List.mem_cons, not_or] at h
      simp only [List.foldl_cons]
      rw [ih (upsertById acc m) h.2, findById_upsertById_ne acc m i h.1]

theorem findById_foldl_upsertById_mem (ms : List ProcessedLiveFeedMatch)
    (acc : List ProcessedLiveFeedMatch) (m : ProcessedLiveFeedMatch)
    (hm : m ∈ ms) (hnd : (ms.map (fun x => x.id)).Nodup) :
    findById (ms.foldl upsertById acc) m.id = some m := by
  induction ms generalizing acc with
  | nil => cases hm
  | cons x xs ih =>
      simp only [List.map, List.nodup_cons] at hnd
      rcases List.mem_cons.mp hm with rfl | hmem
      · simp only [List.foldl_cons]
        rw [findById_foldl_upsertById_not_mem xs (upsertById acc m) m.id hnd.1]
        exact findById_upsertById_self acc m
      · simp only [List.foldl_cons]
        exact ih (upsertById acc x) hmem hnd.2

/-- A concrete stored match with id 1 (used by counterexamples and
witnesses). -/
def mEx1 : ProcessedLiveFeedMatch :=
  { id := 1, matchCode := 101, home := "A", away := "B", league := "L1",
    sport := "S", sportName := "Football", kickOffTime := 0, status := 1,
    blocked := false, favourite := false, isLive := true, liveScore := "0:0",
    liveTime := "0", liveStatus := "1p",
    bets := ⟨[(.fullTimeResultHomeWin, .single ⟨185, 9⟩)]⟩ }

/-- A concrete saved match with id 2. -/
def mEx2 : ProcessedLiveFeedMatch :=
  { id := 2, matchCode := 102, home := "C", away := "D", league := "L2",
    sport := "S", sportName := "Football", kickOffTime := 0, status := 1,
    blocked := false, favourite := false, isLive := true, liveScore := "0:0",
    liveTime := "0", liveStatus := "1p",
    bets := ⟨[(.fullTimeResultDraw, .single ⟨320, 4⟩)]⟩ }

/-- Concrete save metadata. -/
def metaEx : SaveMetadata :=
  { lastUpdated := "2025-01-01T00:00:00Z", collectionInterval := 30,
    selectedSport := "S", totalLeagues := 0 }

/-- A file document already holding the match with id 1. -/
def fdEx : FileData :=
  { matchesMap := [mEx1], lastUpdated := "", collectionInterval := 30,
    selectedSport := "S", totalMatches := 1, totalLeagues := 0 }

/-- C7 counterexample: the file backend save is a read-merge-write, so
saving the single match with id 2 into a document that already holds id
1 and then reading back yields the id set `{1, 2}`, not exactly the set
`{2}` that was saved. -/
theorem c7_counterexample :
    (getFromFile (saveLiveFeedToFile fdEx [mEx2] metaEx)).map (fun m => m.id) = [1, 2] ∧
    ([mEx2].map (fun m => m.id)) = [2] := by
  decide

/-- C7 (amended): after a file-backend save, the ids readable by a full
read are exactly the union of the previously stored ids and the saved
ids (so exactly the saved ids when the document starts empty), and every
saved match — odds included — reads back exactly as saved (for saved
lists without duplicate ids). -/
theorem c7_round_trip_amended (fd : FileData) (ms : List ProcessedLiveFeedMatch)
    (meta : SaveMetadata) :
    (∀ i : Int,
        i ∈ (getFromFile (saveLiveFeedToFile fd ms meta)).map (fun x => x.id) ↔
          i ∈ fd.matchesMap.map (fun x => x.id) ∨ i ∈ ms.map (fun x => x.id)) ∧
    ((ms.map (fun x => x.id)).Nodup →
        ∀ m ∈ ms, findById (getFromFile (saveLiveFeedToFile fd ms meta)) m.id = some m) ∧
    (fd.matchesMap = [] →
        ∀ i : Int,
          i ∈ (getFromFile (saveLiveFeedToFile fd ms meta)).map (fun x => x.id) ↔
            i ∈ ms.map (fun x => x.id)) := by
  refine ⟨?_, ?_, ?_⟩
  · intro i
    simp only [getFromFile, saveLiveFeedToFile]
    exact mem_ids_foldl_upsertById ms fd.matchesMap i
  · intro hnd m hm
    simp only [getFromFile, saveLiveFeedToFile]
    exact findById_foldl_upsertById_mem ms fd.matchesMap m hm hnd
  · intro hfd i
    simp only [getFromFile, saveLiveFeedToFile, hfd]
    have := mem_ids_foldl_upsertById ms [] i
    simpa using this

/-- C7 witness: saving `[mEx2]` into the document holding `mEx1` reads
back both ids, and the saved match (odds included) reads back exactly. -/
theorem c7_round_trip_amended_witness :
    ((1 : Int) ∈ (getFromFile (saveLiveFeedToFile fdEx [mEx2] metaEx)).map (fun x => x.id) ↔
      (1 : Int) ∈ fdEx.matchesMap.map (fun x => x.id) ∨
        (1 : Int) ∈ [mEx2].map (fun x => x.id)) ∧
    findById (getFromFile (saveLiveFeedToFile fdEx [mEx2] metaEx)) mEx2.id = some mEx2 :=
  ⟨(c7_round_trip_amended fdEx [mEx2] metaEx).1 1,
   (c7_round_trip_amended fdEx [mEx2] metaEx).2.1 (by decide) mEx2 (by decide)⟩

/-! ### Merge / frame properties of the odds updates -/

theorem isSome_lookupOdds_setSingle (o : ReadableOdds) (k k2 : OddsKey) (e : OddsEntry)
    (h : (lookupOdds o k).isSome = true) :
    (lookupOdds (setSingle o k2 e) k).isSome = true :=
  isSome_lookupOdds_setOdds o k k2 _ h

theorem isSome_lookupOdds_setLine (o : ReadableOdds) (k k2 : OddsKey) (s : String)
    (e : OddsEntry) (h : (lookupOdds o k).isSome = true) :
    (lookupOdds (setLine o k2 s e) k).isSome = true :=
  isSome_lookupOdds_setOdds o k k2 _ h

/-- The session state and event used by the C2 counterexample: the store
holds match id 1 with a populated `fullTimeResultHomeWin`, and the live
event for id 1 arrives with an empty bet list. -/
def cfgC2 : LiveFeedConfig :=
  { isRunning := true, collectionInterval := 30, selectedSport := "S",
    matchesMap := [(1, mEx1)], leagues := [] }

/-- A live event for id 1 carrying no bets. -/
def eventEx1 : LiveFeedEventRec :=
  { id := 1, name := "A - B", competitionName := "L1",
    dateTime := "2025-01-01T00:00:00", status := 1, isPlayable := true,
    isTopOffer := false, sportMatchId := 101, bets := [] }

/-- C2 counterexample: the upsert path (`processLiveEvent`) does not
merge — it replaces the stored record wholesale via `matches.set`.  A
match whose `fullTimeResultHomeWin` was populated loses that key when
the event is re-processed with a payload that does not supply it. -/
theorem c2_counterexample :
    (mapGet cfgC2.matchesMap 1).map
        (fun m => lookupOdds m.bets.odds .fullTimeResultHomeWin) =
      some (some (.single ⟨185, 9⟩)) ∧
    (mapGet (processLiveEvent (fun _ => 0) cfgC2 eventEx1 none).matchesMap 1).map
        (fun m => lookupOdds m.bets.odds .fullTimeResultHomeWin) =
      some none := by
  decide

set_option maxHeartbeats 1600000 in
/-- C2 (amended): the delta-path single-field updates (`updateMatchOdds`
in both services) never delete a previously populated canonical key —
they only overwrite the supplied exact key or add a line sub-key; the
upsert path (`processLiveEvent`), by contrast, replaces the whole odds
set, dropping any canonical key the new payload does not re-supply. -/
theorem c2_merge_amended :
    (∀ (sport : String) (odds : ReadableOdds) (btn oname : String)
        (sv : Option String) (nv pk : Int) (k : OddsKey),
        (lookupOdds odds k).isSome = true →
        (lookupOdds (updateMatchOddsLiveOdds sport odds btn oname sv nv pk) k).isSome = true) ∧
    (∀ (sport : String) (odds : ReadableOdds) (btn oname : String)
        (sv : Option String) (nv pk : Int) (k : OddsKey),
        (lookupOdds odds k).isSome = true →
        (lookupOdds (updateMatchOddsPreOdds sport odds btn oname sv nv pk) k).isSome = true) := by
  constructor
  · intro sport odds btn oname sv nv pk k h
    unfold updateMatchOddsLiveOdds
    by_cases hB : (sport == "B") = true
    · rw [if_pos hB]
      repeat' split
      all_goals
        first
          | exact h
          | exact isSome_lookupOdds_setSingle _ _ _ _ h
          | exact isSome_lookupOdds_setLine _ _ _ _ _ h
    · rw [if_neg hB]
      by_cases hT : (sport == "T") = true
      · rw [if_pos hT]
        repeat' split
        all_goals
          first
            | exact h
            | exact isSome_lookupOdds_setSingle _ _ _ _ h
            | exact isSome_lookupOdds_setLine _ _ _ _ _ h
      · rw [if_neg hT]
        by_cases hS : (sport == "S") = true
        · rw [if_pos hS]
          repeat' split
          all_goals
            first
              | exact h
              | exact isSome_lookupOdds_setSingle _ _ _ _ h
              | exact isSome_lookupOdds_setLine _ _ _ _ _ h
        · rw [if_neg hS]
          exact h
  · intro sport odds btn oname sv nv pk k h
    unfold updateMatchOddsPreOdds
    by_cases hB : (sport == "B") = true
    · rw [if_pos hB]
      repeat' split
      all_goals
        first
          | exact h
          | exact isSome_lookupOdds_setSingle _ _ _ _ h
          | exact isSome_lookupOdds_setLine _ _ _ _ _ h
    · rw [if_neg hB]
      by_cases hT : (sport == "T") = true
      · rw [if_pos hT]
        repeat' split
        all_goals
          first
            | exact h
            | exact isSome_lookupOdds_setSingle _ _ _ _ h
            | exact isSome_lookupOdds_setLine _ _ _ _ _ h
      · rw [if_neg hT]
        by_cases hS : (sport == "S") = true
        · rw [if_pos hS]
          by_cases h1 : (btn == "Konacan ishod") = true
          · rw [if_pos h1]
            repeat' split
            all_goals
              first
                | exact h
                | exact isSome_lookupOdds_setSingle _ _ _ _ h
          · rw [if_neg h1]
            by_cases h2 : (btn == "1.pol - 1X2") = true
            · rw [if_pos h2]
              repeat' split
              all_goals
                first
                  | exact h
                  | exact isSome_lookupOdds_setSingle _ _ _ _ h
            · rw [if_neg h2]
              by_cases h3 : (btn == "Broj golova") = true
              · rw [if_pos h3]
                dsimp only
                repeat' split
                all_goals
                  first
                    | exact h
                    | exact isSome_lookupOdds_setSingle _ _ _ _ h
              · rw [if_neg h3]
                by_cases h4 : (btn == "Oba tima daju gol") = true
                · rw [if_pos h4]
                  repeat' split
                  all_goals
                    first
                      | exact h
                      | exact isSome_lookupOdds_setSingle _ _ _ _ h
                · rw [if_neg h4]
                  by_cases h5 : (btn == "1.pol - Ukupno golova") = true
                  · rw [if_pos h5]
                    repeat' split
                    all_goals
                      first
                        | exact h
                        | exact isSome_lookupOdds_setLine _ _ _ _ _ h
                  · rw [if_neg h5]
                    by_cases h6 : (btn == "Ukupno golova") = true
                    · rw [if_pos h6]
                      repeat' split
                      all_goals
                        first
                          | exact h
                          | exact isSome_lookupOdds_setLine _ _ _ _ _ h
                    · rw [if_neg h6]
                      exact h
        · rw [if_neg hS]
          exact h

/-- C2 witness: updating `fullTimeResultDraw` on odds holding
`fullTimeResultHomeWin` keeps the latter populated, on both delta paths. -/
theorem c2_merge_amended_witness :
    (lookupOdds (updateMatchOddsLiveOdds "S" mEx1.bets.odds "Konacan ishod" "X" none 310 4)
        OddsKey.fullTimeResultHomeWin).isSome = true ∧
    (lookupOdds (updateMatchOddsPreOdds "S" mEx1.bets.odds "Konacan ishod" "X" none 310 4)
        OddsKey.fullTimeResultHomeWin).isSome = true :=
  ⟨c2_merge_amended.1 "S" mEx1.bets.odds "Konacan ishod" "X" none 310 4
      .fullTimeResultHomeWin (by decide),
   c2_merge_amended.2 "S" mEx1.bets.odds "Konacan ishod" "X" none 310 4
      .fullTimeResultHomeWin (by decide)⟩

/-! ### C5: new delta events and their detailed odds -/

/-- A changed-event record announcing new event id 42 (sport 1 =
football), structurally valid for `processChangedEvents`. -/
def changedEvEx : CacheChangedEventRec :=
  { id := [42, 1, 7, 9], n := [1, 0, 0, 0, 0, 0, 0], b := [1, 1, 1, 1, 1, 1],
    t := ["100", "2025-01-01T00:00:00", "Liga", "A - B", "AB", "", ""] }

/-- A detailed-odds payload for the new event: one `Konacan ishod` bet
whose normalization is non-empty. -/
def payloadEx : List LiveBetRec :=
  [⟨56, "Konacan ishod", [⟨"1", none, 2, 11⟩]⟩]

/-- C5: `LiveFeedService.processChangedEvents` fetches the detailed odds
for a new event id but never uses them — it builds the `LiveFeedEvent`
with `bets: []`, so the match stored under the new id carries an *empty*
odds set even though fully normalizing the fetched payload would be
non-empty.  The claim (and the spec) say the stored record carries the
normalized fetched odds. -/
theorem c5_new_event_odds_dropped :
    (mapGet (processChangedEventLive (fun _ => 0)
        ⟨true, 30, "S", [], []⟩ changedEvEx (some payloadEx)).matchesMap 42).map
      (fun m => m.bets.odds) = some ([] : ReadableOdds) ∧
    payloadEx.foldl (fun o b => processBetOutcomesLive "S" b o) [] =
      [(.fullTimeResultHomeWin, .single ⟨2, 11⟩)] := by
  decide

/-! ### C4: phase-one normalization vs delta-path single-field update -/

/-- Consistency of a raw record's `(betTypeId, betTypeName)` pair with
the provider's bet-type naming, as documented in the sources' comments
(56 is `Konacan ishod` for football and `Pobednik` for basketball and
tennis, 6 is `1.pol - 1X2`, 22 is `Ukupno golova`, and the name-keyed
markets carry ids outside that set); the first-half totals market is
excluded because the two LiveFeed paths key it on different provider
names. -/
def liveBetPairOk (sport : String) (betTypeId : Int) (betTypeName : String) : Bool :=
  if sport == "S" then
    (betTypeId == 56 && betTypeName == "Konacan ishod") ||
    (betTypeId == 6 && betTypeName == "1.pol - 1X2") ||
    (betTypeId == 22 && betTypeName == "Ukupno golova") ||
    (betTypeId != 56 && betTypeId != 6 && betTypeId != 22 &&
      betTypeName == "Oba tima daju gol")
  else if sport == "B" then
    betTypeId == 56 && betTypeName == "Pobednik"
  else if sport == "T" then
    (betTypeId == 56 && betTypeName == "Pobednik") ||
    (betTypeId != 56 && betTypeName == "Pobednik seta")
  else false

/-- Restriction making the two pre-games paths comparable: the outcome
name does not contain the `home`/`draw`/`away` fallback words (which
only phase one accepts), and line-based markets carry a truthy line
value (phase one substitutes a default where the delta path skips). -/
def preRecordOk (betTypeName outcomeName : String) (sv : Option String) : Bool :=
  !(strContains (lowerString outcomeName) "home") &&
  !(strContains (lowerString outcomeName) "draw") &&
  !(strContains (lowerString outcomeName) "away") &&
  (!(betTypeName == "1.pol - Ukupno golova" || betTypeName == "Ukupno golova") ||
    strTruthy sv)

/-- C4 counterexample: the two LiveFeed paths do not share one mapping.
For the same raw identifiers (bet-type name `1.pol - Ukupno`, outcome
`manje 1.5`, line `1.5`), phase one (`processBetOutcomes`) writes the
canonical key `firstHalfUnderTotal`/`1H_1.5`, while the delta path
(`updateMatchOdds`, which matches `1.p - Ukupno` instead) writes
nothing. -/
theorem c4_counterexample :
    processBetOutcomesLive "S" ⟨135, "1.pol - Ukupno", [⟨"manje 1.5", some "1.5", 2, 10⟩]⟩ []
        = [(.firstHalfUnderTotal, .line [("1H_1.5", ⟨2, 10⟩)])] ∧
    updateMatchOddsLiveOdds "S" [] "1.pol - Ukupno" "manje 1.5" (some "1.5") 2 10
        = ([] : ReadableOdds) := by
  decide

/-- The LiveFeed delta path and LiveFeed phase one agree on every raw
record whose `(betTypeId, betTypeName)` pair is provider-consistent
(first-half totals excluded — see the C4 counterexample). -/
theorem liveDeltaEq (sport : String) (odds : ReadableOdds) (betTypeId : Int)
    (btn name : String) (sv : Option String) (odd pick : Int)
    (hp : liveBetPairOk sport betTypeId btn = true) :
    processBetOutcomesLive sport ⟨betTypeId, btn, [⟨name, sv, odd, pick⟩]⟩ odds =
      updateMatchOddsLiveOdds sport odds btn name sv odd pick := by
  unfold liveBetPairOk at hp
  by_cases hS : (sport == "S") = true
  · rw [if_pos hS] at hp
    have hS2 : sport = "S" := by simpa using hS
    subst hS2
    simp only [Bool.or_eq_true, Bool.and_eq_true, beq_iff_eq, bne_iff_ne, ne_eq] at hp
    rcases hp with ((⟨h1, h2⟩ | ⟨h1, h2⟩) | ⟨h1, h2⟩) | ⟨⟨⟨h1, h2⟩, h3⟩, h4⟩
    · subst h1; subst h2
      simp [processBetOutcomesLive, liveBetOutcomeStep, updateMatchOddsLiveOdds]
    · subst h1; subst h2
      simp [processBetOutcomesLive, liveBetOutcomeStep, updateMatchOddsLiveOdds]
    · subst h1; subst h2
      simp [processBetOutcomesLive, liveBetOutcomeStep, updateMatchOddsLiveOdds]
    · subst h4
      simp [processBetOutcomesLive, liveBetOutcomeStep, updateMatchOddsLiveOdds, h1, h2, h3]
  · rw [if_neg hS] at hp
    by_cases hB : (sport == "B") = true
    · rw [if_pos hB] at hp
      have hB2 : sport = "B" := by simpa using hB
      subst hB2
      simp only [Bool.and_eq_true, beq_iff_eq] at hp
      obtain ⟨h1, h2⟩ := hp
      subst h1; subst h2
      simp [processBetOutcomesLive, liveBetOutcomeStep, updateMatchOddsLiveOdds]
    · rw [if_neg hB] at hp
      by_cases hT : (sport == "T") = true
      · rw [if_pos hT] at hp
        have hT2 : sport = "T" := by simpa using hT
        subst hT2
        simp only [Bool.or_eq_true, Bool.and_eq_true, beq_iff_eq, bne_iff_ne, ne_eq] at hp
        rcases hp with ⟨h1, h2⟩ | ⟨h1, h2⟩
        · subst h1; subst h2
          simp [processBetOutcomesLive, liveBetOutcomeStep, updateMatchOddsLiveOdds]
        · subst h2
          simp [processBetOutcomesLive, liveBetOutcomeStep, updateMatchOddsLiveOdds, h1]
      · rw [if_neg hT] at hp
        cases hp


/-- The pre-games delta path and pre-games football phase one agree on
every record without the phase-one-only name fallbacks and with a truthy
line value on line-based markets. -/
theorem preFootballDeltaEq (odds : ReadableOdds) (btn name : String)
    (sv : Option String) (odd pick : Int)
    (hp : preRecordOk btn name sv = true) :
    processFootballBetPre odds ⟨btn, [⟨name, sv, odd, pick⟩]⟩ =
      updateMatchOddsPreOdds "S" odds btn name sv odd pick := by
  simp only [preRecordOk, Bool.and_eq_true, Bool.not_eq_true', Bool.or_eq_true,
    beq_iff_eq] at hp
  obtain ⟨⟨⟨hhome, hdraw⟩, haway⟩, hsv⟩ := hp
  by_cases h1 : btn = "Konacan ishod"
  · subst h1
    simp [processFootballBetPre, preKonacanIshodStep, updateMatchOddsPreOdds,
      hhome, hdraw, haway]
  · by_cases h2 : btn = "1.pol - 1X2"
    · subst h2
      simp [processFootballBetPre, preFirstHalfStep, updateMatchOddsPreOdds,
        hhome, hdraw, haway]
    · by_cases h3 : btn = "Broj golova"
      · subst h3
        simp [processFootballBetPre, preBrojGolovaStep, updateMatchOddsPreOdds]
      · by_cases h4 : btn = "Oba tima daju gol"
        · subst h4
          simp [processFootballBetPre, preObaTimaStep, updateMatchOddsPreOdds]
        · by_cases h5 : btn = "1.pol - Ukupno golova"
          · subst h5
            have htr : strTruthy sv = true := by
              rcases hsv with hsv | hsv
              · simp at hsv
              · exact hsv
            cases sv with
            | none => cases htr
            | some s =>
                have hs : ¬s = "" := by simpa [strTruthy] using htr
                simp [processFootballBetPre, preFirstHalfTotalsStep, svDefault,
                  updateMatchOddsPreOdds, hs]
          · by_cases h6 : btn = "Ukupno golova"
            · subst h6
              have htr : strTruthy sv = true := by
                rcases hsv with hsv | hsv
                · simp at hsv
                · exact hsv
              cases sv with
              | none => cases htr
              | some s =>
                  have hs : ¬s = "" := by simpa [strTruthy] using htr
                  simp [processFootballBetPre, preTotalsStep, svDefault,
                    updateMatchOddsPreOdds, hs]
            · simp [processFootballBetPre, updateMatchOddsPreOdds,
                h1, h2, h3, h4, h5, h6]

/-- Pre-games basketball: same agreement. -/
theorem preBasketballDeltaEq (odds : ReadableOdds) (btn name : String)
    (sv : Option String) (odd pick : Int)
    (hp : preRecordOk btn name sv = true) :
    processBasketballBetPre odds ⟨btn, [⟨name, sv, odd, pick⟩]⟩ =
      updateMatchOddsPreOdds "B" odds btn name sv odd pick := by
  simp only [preRecordOk, Bool.and_eq_true, Bool.not_eq_true', Bool.or_eq_true,
    beq_iff_eq] at hp
  obtain ⟨⟨⟨hhome, hdraw⟩, haway⟩, hsv⟩ := hp
  by_cases h1 : btn = "Pobednik"
  · subst h1
    simp [processBasketballBetPre, prePobednikBasketballStep, updateMatchOddsPreOdds,
      hhome, haway]
  · simp [processBasketballBetPre, updateMatchOddsPreOdds, h1]

/-- Pre-games tennis: same agreement. -/
theorem preTennisDeltaEq (odds : ReadableOdds) (btn name : String)
    (sv : Option String) (odd pick : Int)
    (hp : preRecordOk btn name sv = true) :
    processTennisBetPre odds ⟨btn, [⟨name, sv, odd, pick⟩]⟩ =
      updateMatchOddsPreOdds "T" odds btn name sv odd pick := by
  simp only [preRecordOk, Bool.and_eq_true, Bool.not_eq_true', Bool.or_eq_true,
    beq_iff_eq] at hp
  obtain ⟨⟨⟨hhome, hdraw⟩, haway⟩, hsv⟩ := hp
  by_cases h1 : btn = "Pobednik"
  · subst h1
    simp [processTennisBetPre, prePobednikTennisStep, updateMatchOddsPreOdds,
      hhome, haway]
  · by_cases h2 : btn = "1.set - Pobednik"
    · subst h2
      simp [processTennisBetPre, preFirstSetTennisStep, updateMatchOddsPreOdds,
        hhome, haway]
    · simp [processTennisBetPre, updateMatchOddsPreOdds, h1, h2]


/-- C4 (amended): the delta-path single-field update writes the same
canonical odds key and value as phase-one normalization for the same raw
identifiers, with these code-forced exceptions: in LiveFeedService the
first-half totals market is keyed on `1.pol - Ukupno` by phase one but
on `1.p - Ukupno` by the delta path (so the two paths diverge there, see
the counterexample), and in PreGamesService the agreement holds for
records that do not rely on the phase-one-only `home`/`draw`/`away` name
fallbacks and that carry a truthy line value on line-based markets
(phase one substitutes a default line where the delta path skips).  The
mapping is duplicated per path in the code, not shared. -/
theorem c4_shared_mapping_amended :
    (∀ (sport : String) (odds : ReadableOdds) (betTypeId : Int) (btn name : String)
        (sv : Option String) (odd pick : Int),
        liveBetPairOk sport betTypeId btn = true →
        processBetOutcomesLive sport ⟨betTypeId, btn, [⟨name, sv, odd, pick⟩]⟩ odds =
          updateMatchOddsLiveOdds sport odds btn name sv odd pick) ∧
    (∀ (odds : ReadableOdds) (btn name : String) (sv : Option String) (odd pick : Int),
        preRecordOk btn name sv = true →
        processFootballBetPre odds ⟨btn, [⟨name, sv, odd, pick⟩]⟩ =
          updateMatchOddsPreOdds "S" odds btn name sv odd pick) ∧
    (∀ (odds : ReadableOdds) (btn name : String) (sv : Option String) (odd pick : Int),
        preRecordOk btn name sv = true →
        processBasketballBetPre odds ⟨btn, [⟨name, sv, odd, pick⟩]⟩ =
          updateMatchOddsPreOdds "B" odds btn name sv odd pick) ∧
    (∀ (odds : ReadableOdds) (btn name : String) (sv : Option String) (odd pick : Int),
        preRecordOk btn name sv = true →
        processTennisBetPre odds ⟨btn, [⟨name, sv, odd, pick⟩]⟩ =
          updateMatchOddsPreOdds "T" odds btn name sv odd pick) :=
  ⟨liveDeltaEq, preFootballDeltaEq, preBasketballDeltaEq, preTennisDeltaEq⟩

/-- C4 witness: the amended agreement at concrete records of each
family. -/
theorem c4_shared_mapping_amended_witness :
    (processBetOutcomesLive "S" ⟨56, "Konacan ishod", [⟨"1", none, 2, 9⟩]⟩ [] =
      updateMatchOddsLiveOdds "S" [] "Konacan ishod" "1" none 2 9) ∧
    (processFootballBetPre [] ⟨"Ukupno golova", [⟨"manje 2.5", some "2.5", 3, 8⟩]⟩ =
      updateMatchOddsPreOdds "S" [] "Ukupno golova" "manje 2.5" (some "2.5") 3 8) ∧
    (processBasketballBetPre [] ⟨"Pobednik", [⟨"2", none, 4, 7⟩]⟩ =
      updateMatchOddsPreOdds "B" [] "Pobednik" "2" none 4 7) ∧
    (processTennisBetPre [] ⟨"1.set - Pobednik", [⟨"1", none, 5, 6⟩]⟩ =
      updateMatchOddsPreOdds "T" [] "1.set - Pobednik" "1" none 5 6) :=
  ⟨c4_shared_mapping_amended.1 "S" [] 56 "Konacan ishod" "1" none 2 9 (by decide),
   c4_shared_mapping_amended.2.1 [] "Ukupno golova" "manje 2.5" (some "2.5") 3 8 (by decide),
   c4_shared_mapping_amended.2.2.1 [] "Pobednik" "2" none 4 7 (by decide),
   c4_shared_mapping_amended.2.2.2 [] "1.set - Pobednik" "1" none 5 6 (by decide)⟩

end AdmiralScraper
